import Mathlib

/-!
Verification of the NetworkIQ matching and scoring engine.

This file gives a shallow embedding, in Lean, of the core of the
repository's backend:

* `backend/profile_analyzer.py` — `ProfileAnalyzer.__init__`,
  `ProfileAnalyzer.analyze_profile` (the standard Gemini path and its
  validation loop), `ProfileAnalyzer._analyze_with_langextract`,
  `ProfileAnalyzer._find_matching_element`, `_match_education`,
  `_match_company`, `_process_extractions`, `_generate_insights`,
  `_find_hidden_connections`, `_generate_recommendation`,
  `ProfileAnalyzer._fallback_scoring`;
* `backend/resume_parser.py` — `ResumeParser._extract_military`,
  `ResumeParser._build_search_elements` (the pattern strategy's element
  builder) and the search-element construction inside
  `ResumeParser._parse_with_langextract` (the structured strategy);
* `backend/main.py` — the per-profile loop of `analyze_profiles_batch`.

Modelling conventions:

* Python dicts parsed from JSON become structures whose fields are
  `Option`-valued exactly when the source reads them with `.get` (a
  missing key is `none`); fields the source reads with mandatory
  `d["key"]` indexing at every use site are plain fields.
* JSON numbers used as points / weights / scores are modelled as `Int`
  (the engine's weight tables and prompt contract use integers);
  confidences, whose float literals in the source are 0.0, 0.1, 0.3,
  0.8, 0.85, 0.9, 0.95 and 1.0 (all exact decimal fractions), are
  modelled as `ℚ`.  Rational constants are written in already-reduced
  `num/den` form so that every definition evaluates by kernel reduction.
* Python string operations (`in`, `.lower()`, `.upper()`, `.strip()`,
  `.title()`, `.capitalize()`) are re-implemented over the character
  list of a `String` so that they, too, evaluate by kernel reduction.
* The nondeterministic LLM call itself is not modelled: each analysis
  function takes the parsed LLM response (or `none` for a failed /
  unparsable call) as an explicit argument, exactly the data the
  corresponding Python code receives after `json.loads` succeeds, and
  an `Except` value models Python raise-vs-return behaviour.
-/

namespace NetworkIQ

/-! ### String primitives (Python `in`, `lower`, `upper`, `strip`, `title`) -/

/-- Does the character list `n` occur as a prefix of `h`? -/
def chars_lead : List Char → List Char → Bool
  | [], _ => true
  | _ :: _, [] => false
  | a :: as, b :: bs => a == b && chars_lead as bs

/-- Does the character list `n` occur contiguously inside `h`? -/
def chars_inside (n : List Char) : List Char → Bool
  | [] => n.isEmpty
  | c :: cs => chars_lead n (c :: cs) || chars_inside n cs

/-- Python `needle in hay` on strings: contiguous substring test. -/
def substr (needle hay : String) : Bool :=
  chars_inside needle.data hay.data

/-- Python `s.lower()`. -/
def lowerStr (s : String) : String := String.mk (s.data.map Char.toLower)

/-- Python `s.upper()`. -/
def upperStr (s : String) : String := String.mk (s.data.map Char.toUpper)

/-- Python `s.strip()`: drop leading and trailing whitespace. -/
def trimStr (s : String) : String :=
  String.mk (((s.data.dropWhile Char.isWhitespace).reverse.dropWhile Char.isWhitespace).reverse)

/-- Python `s.capitalize()` restricted to the first character (adequate for
the lower-case single-word inputs the extractor feeds it). -/
def capStr (s : String) : String :=
  match s.data with
  | [] => String.mk []
  | c :: cs => String.mk (c.toUpper :: cs)

/-- One step of Python `s.title()`: a letter is upper-cased when the
previous character is not a letter, lower-cased otherwise. The `Bool`
argument records whether the previous character was alphabetic. -/
def titleChars : Bool → List Char → List Char
  | _, [] => []
  | prevAlpha, c :: cs =>
      (if c.isAlpha then (if prevAlpha then c.toLower else c.toUpper) else c)
        :: titleChars c.isAlpha cs

/-- Python `s.title()`. -/
def titleStr (s : String) : String := String.mk (titleChars false s.data)

/-- Python truthiness of an optional string (`None` and `""` are falsy). -/
def pyTruthy : Option String → Bool
  | none => false
  | some s => s ≠ ""

/-! ### Exact rational constants for the source's float literals -/

/-- 0.3, the matcher's `CONFIDENCE_THRESHOLD`. -/
def q0_3 : ℚ := ⟨3, 10, by norm_num, by norm_num⟩

/-- 0.8, the LangExtract path's default confidence. -/
def q0_8 : ℚ := ⟨4, 5, by norm_num, by norm_num⟩

/-- 0.85, extractor confidence for skills and achievements. -/
def q0_85 : ℚ := ⟨17, 20, by norm_num, by norm_num⟩

/-- 0.9, extractor confidence for locations, certifications and
`_process_extractions` matches. -/
def q0_9 : ℚ := ⟨9, 10, by norm_num, by norm_num⟩

/-- 0.95, extractor confidence for education, company and military
elements of the structured strategy. -/
def q0_95 : ℚ := ⟨19, 20, by norm_num, by norm_num⟩

/-- 0.1, used as a concrete low confidence in test inputs. -/
def q0_1 : ℚ := ⟨1, 10, by norm_num, by norm_num⟩

/-- 0.5, used as a concrete mid confidence in test inputs. -/
def q0_5 : ℚ := ⟨1, 2, by norm_num, by norm_num⟩

/-! ### Data model -/

/-- One candidate match record, i.e. one entry of the `"matches"` array
of a parsed analysis response (or a match dict built by the analyzer
itself).  Every field is optional because the source reads each one with
`.get` except `points`, which `analyze_profile` reads with mandatory
indexing *after* validation — a missing `points` there raises `KeyError`
and routes to the fallback, which the analysis functions below model
explicitly. -/
structure RawMatch where
  category : Option String
  found_in_profile : Option String
  matches_element : Option String
  points : Option Int
  confidence : Option ℚ
  reasoning : Option String
deriving DecidableEq, Repr

/-- One search element produced by resume extraction.  The four plain
fields are written by every element constructor in `resume_parser.py`
and are read with mandatory indexing (`element["weight"]`, …) on the
scoring side, so they are modelled as non-optional; `confidence` is set
only by the structured (LangExtract) strategy. -/
structure SearchElement where
  category : String
  value : String
  weight : Int
  display : String
  confidence : Option ℚ
deriving DecidableEq, Repr

/-- The profile fields the matcher reads (all via `.get`). -/
structure Profile where
  name : Option String
  headline : Option String
  about : Option String
  text : Option String
  url : Option String
  company : Option String
deriving DecidableEq, Repr

/-- The result of one profile evaluation, as assembled by
`analyze_profile`, `_analyze_with_langextract` or `_fallback_scoring`. -/
structure MatchResult where
  score : Int
  tier : String
  matches_list : List RawMatch
  insights : List String
  hidden_connections : List String
  recommendation : String
deriving DecidableEq, Repr

/-- A successfully parsed standard-path LLM response: `analyze_profile`
reads `result["matches"]` (mandatory) and the other three keys with
`.get` and a default, which is applied here. -/
structure PrimaryResponse where
  matches_list : List RawMatch
  insights : List String
  hidden_connections : List String
  recommendation : String
deriving DecidableEq, Repr

/-- One entry of the `"matches"` array of a parsed LangExtract result
(`_analyze_with_langextract`, lines 216–232): all keys read via `.get`. -/
structure LXMatch where
  text : Option String
  category : Option String
  confidence : Option ℚ
deriving DecidableEq, Repr

/-- The military-service dict built by the resume extractors. -/
structure MilitaryInfo where
  branch : Option String
  academy : Option String
  veteran : Bool
deriving DecidableEq, Repr

/-- One education entry: the builders test `"institution" in edu`, so the
field is optional. -/
structure EduEntry where
  institution : Option String
  degree : Option String
deriving DecidableEq, Repr

/-- The parsed-resume record consumed by the pattern strategy's
`_build_search_elements` (each list is read with `.get(key, [])`). -/
structure ParsedData where
  education : List EduEntry
  companies : List String
  skills : List String
  military_service : Option MilitaryInfo
  certifications : List String
  keywords : List String
deriving DecidableEq, Repr

/-- The fields of the structured (LangExtract) strategy's parsed data
that feed its search-element construction
(`_parse_with_langextract`, lines 269–359). -/
structure LXParsedData where
  education : List EduEntry
  companies : List String
  military_service : Option MilitaryInfo
  locations : List String
  skills : List String
  certifications : List String
  achievements : List String
deriving DecidableEq, Repr

/-! ### Analyzer construction (`ProfileAnalyzer.__init__`, lines 34–48) -/

/-- `self.api_key = api_key or os.getenv("GEMINI_API_KEY")`; then
`if not self.api_key: raise ValueError("Gemini API key required")`.
`none` models an absent argument / unset environment variable. -/
def init_analyzer (api_key env_key : Option String) : Except String String :=
  let key := if pyTruthy api_key then api_key else env_key
  if pyTruthy key then Except.ok (key.getD "") else Except.error "Gemini API key required"

/-! ### Tier derivation (identical expression at
`profile_analyzer.py` lines 117–121, 242–246 and 487) -/

/-- `"high" if score >= 40 else "medium" if score >= 20 else "low"`. -/
def score_tier (s : Int) : String :=
  if 40 ≤ s then "high" else if 20 ≤ s then "medium" else "low"

/-! ### Standard-path validation (`analyze_profile`, lines 95–110) -/

/-- `found_text = match.get("found_in_profile", "").strip().upper()` is a
null sentinel when it is `"NULL"`, `"NONE"`, `"N/A"`, `""`, or contains
`"NO DIRECT MENTION"` or `"NOTHING STATES"`. -/
def is_null_sentinel (s : String) : Bool :=
  let t := upperStr (trimStr s)
  t == "NULL" || t == "NONE" || t == "N/A" || t == "" ||
    substr "NO DIRECT MENTION" t || substr "NOTHING STATES" t

/-- Lines 99–104: force `confidence` to 0.0 when `found_in_profile` is a
null sentinel, leave the match unchanged otherwise. -/
def force_null_confidence (m : RawMatch) : RawMatch :=
  if is_null_sentinel (m.found_in_profile.getD "") then { m with confidence := some 0 } else m

/-- Line 106: `confidence = match.get("confidence", 1.0)`. -/
def effective_confidence (m : RawMatch) : ℚ := m.confidence.getD 1

/-- Lines 96–110: the validation loop.  Each candidate has its
confidence forced on the null-sentinel rule, then only candidates with
(post-forcing) confidence ≥ 0.3 are kept. -/
def validate_matches (ms : List RawMatch) : List RawMatch :=
  (ms.map force_null_confidence).filter (fun m => decide (q0_3 ≤ effective_confidence m))

/-! ### Fallback scoring (`_fallback_scoring`, lines 466–496) -/

/-- Line 471: `f"{text} {headline} {about}".lower()`. -/
def profile_search_text (p : Profile) : String :=
  lowerStr ((p.text.getD "") ++ " " ++ (p.headline.getD "") ++ " " ++ (p.about.getD ""))

/-- The match dict appended at lines 476–483.  Note that the source sets
no `"confidence"` key on fallback matches. -/
def fallback_match (e : SearchElement) : RawMatch :=
  { category := some e.category
    found_in_profile := some (lowerStr e.value)
    matches_element := some e.display
    points := some e.weight
    confidence := none
    reasoning := none }

/-- `_fallback_scoring`: substring matching of each element's lower-cased
value against the concatenated profile text, sum of hit weights capped at
100, tier from the 40/20 thresholds. -/
def fallback_scoring (p : Profile) (es : List SearchElement) : MatchResult :=
  let hits := es.filter (fun e => substr (lowerStr e.value) (profile_search_text p))
  let total := min ((hits.map (fun e => e.weight)).sum) 100
  { score := total
    tier := score_tier total
    matches_list := hits.map fallback_match
    insights := []
    hidden_connections := []
    recommendation := "" }

/-! ### Standard Gemini path (`analyze_profile`, lines 76–135) -/

/-- `analyze_profile`'s standard path, given the parsed response.
`none` models a generation call that raised or whose output failed
`json.loads` (or lacked the mandatory `"matches"` key): every such
exception is caught at line 132 and routed to `_fallback_scoring`.
With a parsed response, the validation loop runs; the subsequent
`sum(m["points"] …)` raises `KeyError` — also routed to the fallback —
unless every validated match carries `points`. -/
def analyze_profile_standard (response : Option PrimaryResponse) (p : Profile)
    (es : List SearchElement) : MatchResult :=
  match response with
  | none => fallback_scoring p es
  | some r =>
      let valid := validate_matches r.matches_list
      if valid.all (fun m => m.points.isSome) then
        let total := min ((valid.map (fun m => m.points.getD 0)).sum) 100
        { score := total
          tier := score_tier total
          matches_list := valid
          insights := r.insights
          hidden_connections := r.hidden_connections
          recommendation := r.recommendation }
      else fallback_scoring p es

/-! ### LangExtract path (`_analyze_with_langextract` and helpers) -/

/-- `_match_education`'s variation table (lines 290–296). -/
def edu_variations : List (String × List String) :=
  [("mit", ["massachusetts institute of technology", "mit"]),
   ("stanford", ["stanford university", "stanford"]),
   ("harvard", ["harvard university", "harvard college", "harvard"]),
   ("usafa", ["air force academy", "united states air force academy", "usafa"]),
   ("west point", ["west point", "usma", "united states military academy"])]

/-- `_match_education` (lines 287–304). -/
def match_education (user_edu profile_edu : String) : Bool :=
  edu_variations.any (fun kv => substr kv.1 user_edu && kv.2.any (fun v => substr v profile_edu))

/-- `_match_company`'s variation table (lines 308–313). -/
def company_variations : List (String × List String) :=
  [("google", ["google", "alphabet", "youtube"]),
   ("meta", ["meta", "facebook", "instagram", "whatsapp"]),
   ("amazon", ["amazon", "aws", "amazon web services"]),
   ("microsoft", ["microsoft", "linkedin", "github"])]

/-- `_match_company` (lines 306–321). -/
def match_company (user_company profile_company : String) : Bool :=
  company_variations.any (fun kv => substr kv.1 user_company && kv.2.any (fun v => substr v profile_company))

/-- `_find_matching_element` (lines 265–285): first user element whose
lower-cased value contains, or is contained in, the lower-cased
extracted text, with the education/company variation tables as a
secondary test. -/
def find_matching_element (extracted : String) (es : List SearchElement) : Option SearchElement :=
  let el := lowerStr extracted
  es.find? (fun e =>
    let ev := lowerStr e.value
    substr ev el || substr el ev ||
    (e.category == "education" && match_education ev el) ||
    (e.category == "company" && match_company ev el))

/-- The match dicts built at lines 217–232 from a parsed LangExtract
`"matches"` array: extraction entries that correspond to no user element
are dropped, the rest take their points from the matched element's
weight and default their confidence to 0.8. -/
def lx_profile_matches (ds : List LXMatch) (es : List SearchElement) : List RawMatch :=
  ds.filterMap (fun d =>
    (find_matching_element (d.text.getD "") es).map (fun e =>
      { category := some (d.category.getD e.category)
        found_in_profile := some (d.text.getD "")
        matches_element := some e.display
        points := some e.weight
        confidence := some (d.confidence.getD q0_8)
        reasoning := some ("Found exact match for " ++ e.category) }))

/-- `_process_extractions` (lines 323–343): the alternative result shape,
where each extraction text is matched against the user elements and kept
with fixed confidence 0.9. -/
def process_extractions (texts : List String) (es : List SearchElement) : List RawMatch :=
  texts.filterMap (fun t =>
    (find_matching_element t es).map (fun e =>
      { category := some e.category
        found_in_profile := some t
        matches_element := some e.display
        points := some e.weight
        confidence := some q0_9
        reasoning := some ("LangExtract found " ++ e.category ++ " match") }))

/-- `_generate_insights` (lines 345–359).  The `profile_data` parameter
of the source is unused there and omitted here. -/
def generate_insights (ms : List RawMatch) : List String :=
  let high := ms.filter (fun m => decide ((30 : Int) ≤ m.points.getD 0))
  (match high.head? with
   | some m => ["Strong connection through " ++ m.category.getD ""]
   | none => []) ++
  (if 3 ≤ ((ms.map (fun m => m.category.getD "")).dedup).length
   then ["Multiple connection points across different areas"] else [])

/-- `_find_hidden_connections` (lines 361–373). -/
def find_hidden_connections (ms : List RawMatch) : List String :=
  let cats := ms.map (fun m => m.category.getD "")
  (if cats.contains "education" then ["Alumni connection"] else []) ++
  (if cats.contains "company" then ["Professional network overlap"] else []) ++
  (if cats.contains "military" then ["Military bond"] else [])

/-- `_generate_recommendation` (lines 375–381): Python `max(…, key=points)`
keeps the first maximal element. -/
def generate_recommendation (ms : List RawMatch) : String :=
  match ms with
  | [] => "Consider connecting to expand your network"
  | m :: rest =>
      let strongest := rest.foldl (fun best x =>
        if best.points.getD 0 < x.points.getD 0 then x else best) m
      "Strong connection opportunity through " ++ strongest.matches_element.getD ""

/-- `_analyze_with_langextract`, lines 214–259, given the parsed
`"matches"` array of the extraction result: score sums the points of
matches with confidence ≥ 0.3 (`m.get("confidence", 0)` — default 0
here, unlike the standard path) and is capped at 100, but the returned
`matches` list is the *unfiltered* list.  The source also adds an
`"extraction_method": "langextract"` key, irrelevant to the claims and
not modelled. -/
def analyze_with_langextract (ds : List LXMatch) (p : Profile)
    (es : List SearchElement) : MatchResult :=
  let ms := lx_profile_matches ds es
  let total := min (((ms.filter (fun m => decide (q0_3 ≤ m.confidence.getD 0))).map
      (fun m => m.points.getD 0)).sum) 100
  { score := total
    tier := score_tier total
    matches_list := ms
    insights := generate_insights ms
    hidden_connections := find_hidden_connections ms
    recommendation := generate_recommendation ms }

/-- The overall control flow of `analyze_profile` (lines 63–135): when
LangExtract is enabled and its analysis returns a (non-`None`) result,
that result is returned; otherwise the standard path runs. -/
def analyze_profile (lx_result : Option MatchResult) (response : Option PrimaryResponse)
    (p : Profile) (es : List SearchElement) : MatchResult :=
  match lx_result with
  | some r => r
  | none => analyze_profile_standard response p es

/-! ### Batch endpoint (`main.py`, `analyze_profiles_batch` loop, lines 574–617) -/

/-- One entry of the endpoint's `batch_results` list.  `message`,
`insights`, `hidden_connections` and `recommendation` are `Option`s
because the per-item failure dict (lines 608–617) carries none of those
keys. -/
structure BatchItem where
  url : String
  name : String
  score : Int
  tier : String
  matches_list : List RawMatch
  insights : Option (List String)
  hidden_connections : Option (List String)
  recommendation : Option String
  message : Option String
  error : Option String
deriving DecidableEq, Repr

/-- The success dict appended at lines 589–601. -/
def batch_success_item (p : Profile) (a : MatchResult) (msg : String) : BatchItem :=
  { url := p.url.getD ""
    name := p.name.getD ""
    score := a.score
    tier := a.tier
    matches_list := a.matches_list
    insights := some a.insights
    hidden_connections := some a.hidden_connections
    recommendation := some a.recommendation
    message := some msg
    error := none }

/-- The failure dict appended at lines 608–617. -/
def batch_error_item (p : Profile) (msg : String) : BatchItem :=
  { url := p.url.getD ""
    name := p.name.getD ""
    score := 0
    tier := "low"
    matches_list := []
    insights := none
    hidden_connections := none
    recommendation := none
    message := none
    error := some msg }

/-- The body of the per-profile `try`/`except` (lines 576–617):
`analyze` abstracts `analyzer.analyze_profile` (`Except.error` models a
raised exception), `message` abstracts `generate_enhanced_message`
(total: its own failures are caught internally and produce a template
message). -/
def batch_item_of (analyze : Profile → Except String MatchResult)
    (message : Profile → MatchResult → String) (p : Profile) : BatchItem :=
  match analyze p with
  | Except.ok a => batch_success_item p a (message p a)
  | Except.error e => batch_error_item p e

/-- The endpoint's loop: one result per input profile, in order; each
iteration depends only on its own profile. -/
def analyze_profiles_batch (analyze : Profile → Except String MatchResult)
    (message : Profile → MatchResult → String) (profiles : List Profile) : List BatchItem :=
  profiles.map (batch_item_of analyze message)

/-! ### Pattern strategy: military extraction
(`resume_parser.py`, `_extract_military`, lines 726–797) -/

/-- Lines 729–736: the negation guard's markers. -/
def negative_patterns : List String :=
  ["no military", "not military", "non-military", "without military", "never served", "civilian"]

/-- Lines 742–765. -/
def military_keywords : List String :=
  ["air force", "army", "navy", "marine", "coast guard", "military", "veteran",
   "active duty", "reserve", "national guard", "usafa", "west point", "usma",
   "naval academy", "usna", "officer", "enlisted", "sergeant", "lieutenant",
   "captain", "major", "colonel"]

/-- The branch names tested at lines 771–780. -/
def military_branches : List String :=
  ["air force", "army", "navy", "marine", "coast guard"]

/-- The academy names tested at lines 785–794. -/
def military_academies : List String :=
  ["usafa", "usma", "usna", "west point", "naval academy"]

/-- The body of the keyword loop (lines 768–795) for one keyword found in
the text: set `branch` if not already set and the keyword contains a
branch name, always set `veteran`, and (re)set `academy` whenever the
keyword contains an academy name.  `none` stands for the still-empty
`military_info` dict. -/
def military_step (text : String) (info : Option MilitaryInfo) (kw : String) : Option MilitaryInfo :=
  if substr kw text then
    let i := info.getD { branch := none, academy := none, veteran := false }
    let i := if i.branch.isNone && military_branches.any (fun b => substr b kw)
             then { i with branch := some kw } else i
    let i := { i with veteran := true }
    let i := if military_academies.any (fun a => substr a kw)
             then { i with academy := some kw } else i
    some i
  else info

/-- `_extract_military` (lines 726–797): any negation marker in the text
suppresses the whole scan (`return None` at line 740); otherwise the
keyword loop builds the dict, and the empty dict is returned as `None`. -/
def extract_military (text : String) : Option MilitaryInfo :=
  if negative_patterns.any (fun pat => substr pat text) then none
  else military_keywords.foldl (military_step text) none

/-! ### Pattern strategy: element builder
(`_build_search_elements`, lines 900–985) -/

/-- Lines 930–950 of `_build_search_elements`: the military section —
an academy element (weight 40) takes precedence over a branch element
(weight 30); an empty or academy-and-branch-free dict yields nothing. -/
def military_elements : Option MilitaryInfo → List SearchElement
  | none => []
  | some m =>
      if pyTruthy m.academy then
        [{ category := "military", value := m.academy.getD "", weight := 40,
           display := upperStr (m.academy.getD "") ++ " Alumni", confidence := none }]
      else if pyTruthy m.branch then
        [{ category := "military", value := m.branch.getD "", weight := 30,
           display := titleStr (m.branch.getD "") ++ " Veteran", confidence := none }]
      else []

/-- `_build_search_elements`: category sections are appended in source
order — education (weight 30), companies (25), military (40 for an
academy, else 30 for a branch), the first 10 skills (10), certifications
(15), the first 5 keywords (5).  The list is neither sorted nor
truncated. -/
def build_search_elements (d : ParsedData) : List SearchElement :=
  (d.education.filterMap (fun edu =>
    edu.institution.map (fun inst =>
      { category := "education", value := inst, weight := 30,
        display := "Alumni: " ++ titleStr inst, confidence := none }))) ++
  (d.companies.map (fun c =>
    { category := "company", value := lowerStr c, weight := 25,
      display := "Former " ++ titleStr c, confidence := none })) ++
  military_elements d.military_service ++
  ((d.skills.take 10).map (fun s =>
    { category := "skill", value := s, weight := 10,
      display := "Shared skill: " ++ s, confidence := none })) ++
  (d.certifications.map (fun c =>
    { category := "certification", value := c, weight := 15,
      display := "Both have " ++ upperStr c, confidence := none })) ++
  ((d.keywords.take 5).map (fun k =>
    { category := "keyword", value := k, weight := 5,
      display := titleStr k, confidence := none }))

/-! ### Structured strategy: element builder
(`_parse_with_langextract`, lines 269–359) -/

/-- Lines 293–311 of `_parse_with_langextract`: its military section —
academy element (weight 45) takes precedence over branch element (35). -/
def lx_military_elements : Option MilitaryInfo → List SearchElement
  | none => []
  | some m =>
      if pyTruthy m.academy then
        [{ category := "military", value := lowerStr (m.academy.getD ""), weight := 45,
           display := m.academy.getD "" ++ " Alumni", confidence := some q0_95 }]
      else if pyTruthy m.branch then
        [{ category := "military", value := lowerStr (m.branch.getD ""), weight := 35,
           display := m.branch.getD "" ++ " Veteran", confidence := some q0_95 }]
      else []

/-- The raw element list of the structured strategy, in source order:
education (35), companies (30), military (45 academy / 35 branch), first
3 locations (25), first 5 skills (15), certifications (20), first 3
achievements shorter than 50 characters (20).  Truthiness guards follow
the source (`if "institution" in edu and edu["institution"]`, `if
company:`, …). -/
def lx_raw_elements (d : LXParsedData) : List SearchElement :=
  (d.education.filterMap (fun edu =>
    edu.institution.bind (fun inst =>
      if inst ≠ "" then
        some { category := "education", value := lowerStr inst, weight := 35,
               display := "Alumni: " ++ inst, confidence := some q0_95 }
      else none))) ++
  (d.companies.filterMap (fun c =>
    if c ≠ "" then
      some { category := "company", value := lowerStr c, weight := 30,
             display := "Former " ++ c, confidence := some q0_95 }
    else none)) ++
  lx_military_elements d.military_service ++
  ((d.locations.take 3).filterMap (fun l =>
    if l ≠ "" then
      some { category := "location", value := lowerStr l, weight := 25,
             display := "Connected to " ++ l, confidence := some q0_9 }
    else none)) ++
  ((d.skills.take 5).filterMap (fun s =>
    if s ≠ "" then
      some { category := "skill", value := lowerStr s, weight := 15,
             display := "Shared skill: " ++ s, confidence := some q0_85 }
    else none)) ++
  (d.certifications.filterMap (fun c =>
    if c ≠ "" then
      some { category := "certification", value := lowerStr c, weight := 20,
             display := "Both have " ++ c, confidence := some q0_9 }
    else none)) ++
  ((d.achievements.take 3).filterMap (fun a =>
    if a ≠ "" && a.length < 50 then
      some { category := "achievement", value := lowerStr a, weight := 20,
             display := a, confidence := some q0_85 }
    else none))

/-- Stable descending insertion by weight: the inserted element goes in
front of the first strictly-lighter or equally-heavy successor it
dominates, i.e. before the first element it outweighs-or-ties from the
left.  (`list.sort(key=weight, reverse=True)` is a stable descending
sort.) -/
def insert_desc (e : SearchElement) : List SearchElement → List SearchElement
  | [] => [e]
  | x :: xs => if x.weight ≤ e.weight then e :: x :: xs else x :: insert_desc e xs

/-- Stable descending sort by weight, modelling
`search_elements.sort(key=lambda x: x["weight"], reverse=True)`. -/
def sort_desc : List SearchElement → List SearchElement
  | [] => []
  | x :: xs => insert_desc x (sort_desc xs)

/-- Lines 357–359: sort descending by weight and keep the top 15. -/
def lx_search_elements (d : LXParsedData) : List SearchElement :=
  (sort_desc (lx_raw_elements d)).take 15

/-- The pattern strategy's fixed category-to-weight table: the set of
`(category, weight)` pairs `_build_search_elements` can emit. -/
def pattern_weight_table : List (String × Int) :=
  [("education", 30), ("company", 25), ("military", 40), ("military", 30),
   ("skill", 10), ("certification", 15), ("keyword", 5)]

/-- The structured strategy's fixed category-to-weight table: the set of
`(category, weight)` pairs its element construction can emit. -/
def lx_weight_table : List (String × Int) :=
  [("education", 35), ("company", 30), ("military", 45), ("military", 35),
   ("location", 25), ("skill", 15), ("certification", 20), ("achievement", 20)]

/-! ### Concrete inputs used by counterexamples and witnesses -/

/-- The spec's concrete scenario element:
`{category: "military", value: "usafa", weight: 45, display: "USAFA Alumni"}`. -/
def usafa_element : SearchElement :=
  { category := "military", value := "usafa", weight := 45,
    display := "USAFA Alumni", confidence := none }

/-- A profile whose text contains "graduated USAFA". -/
def usafa_profile : Profile :=
  { name := some "Jane Doe", headline := none, about := none,
    text := some "graduated USAFA", url := none, company := none }

/-- A parsed standard-path response whose single match has genuine
evidence text and confidence but negative points. -/
def negative_points_response : PrimaryResponse :=
  { matches_list := [{ category := some "company", found_in_profile := some "google",
                       matches_element := some "Former Google", points := some (-50),
                       confidence := some q0_5, reasoning := some "explicit mention" }],
    insights := [], hidden_connections := [], recommendation := "" }

/-- A parsed standard-path response whose single match is well formed,
with positive points. -/
def well_formed_response : PrimaryResponse :=
  { matches_list := [{ category := some "military", found_in_profile := some "graduated USAFA",
                       matches_element := some "USAFA Alumni", points := some 45,
                       confidence := some q0_5, reasoning := some "explicit mention" }],
    insights := [], hidden_connections := [], recommendation := "" }

/-- A LangExtract extraction entry with empty text and confidence 0.1. -/
def empty_text_extraction : LXMatch :=
  { text := some "", category := none, confidence := some q0_1 }

/-- A candidate match that lacks the `found_in_profile` key entirely but
carries maximal confidence and points. -/
def no_found_match : RawMatch :=
  { category := some "education", found_in_profile := none,
    matches_element := some "Alumni: MIT", points := some 35,
    confidence := some 1, reasoning := none }

/-- A parsed standard-path response containing only `no_found_match`. -/
def no_found_response : PrimaryResponse :=
  { matches_list := [no_found_match], insights := [], hidden_connections := [],
    recommendation := "" }

/-- Parsed-resume data whose pattern-strategy elements come out unsorted
(a weight-25 company element precedes the weight-40 military element)
and, with 16 companies, number more than 15. -/
def many_companies_data : ParsedData :=
  { education := [],
    companies := ["c01", "c02", "c03", "c04", "c05", "c06", "c07", "c08",
                  "c09", "c10", "c11", "c12", "c13", "c14", "c15", "c16"],
    skills := [],
    military_service := some { branch := some "air force", academy := some "usafa", veteran := true },
    certifications := [], keywords := [] }

/-- Parsed-resume data holding the single fact "worked at google", as
seen by the pattern strategy. -/
def google_pattern_data : ParsedData :=
  { education := [], companies := ["google"], skills := [],
    military_service := none, certifications := [], keywords := [] }

/-- The same single fact "worked at google", as seen by the structured
strategy. -/
def google_lx_data : LXParsedData :=
  { education := [], companies := ["google"], military_service := none,
    locations := [], skills := [], certifications := [], achievements := [] }

/-- A resume text that names military keywords inside a negation. -/
def negated_military_text : String :=
  "experienced operator, no military experience, worked with navy contractors as an officer liaison"

/-- An analysis step that always raises, for exercising the batch loop's
per-item error handling. -/
def failing_analyze : Profile → Except String MatchResult :=
  fun _ => Except.error "boom"

/-- The tier-consistency predicate of the spec: `tier` is `"high"`,
`"medium"` or `"low"` exactly on the score ranges `[40, ∞)`, `[20, 40)`
and `(-∞, 20)`. -/
def tier_consistent (r : MatchResult) : Prop :=
  (r.tier = "high" ↔ 40 ≤ r.score) ∧
  (r.tier = "medium" ↔ 20 ≤ r.score ∧ r.score < 40) ∧
  (r.tier = "low" ↔ r.score < 20)

/-! ## Helper lemmas -/

theorem score_tier_spec (s : Int) :
    (score_tier s = "high" ↔ 40 ≤ s) ∧
    (score_tier s = "medium" ↔ 20 ≤ s ∧ s < 40) ∧
    (score_tier s = "low" ↔ s < 20) := by
  have hhm : ("high" : String) ≠ "medium" := by decide
  have hhl : ("high" : String) ≠ "low" := by decide
  have hmh : ("medium" : String) ≠ "high" := by decide
  have hml : ("medium" : String) ≠ "low" := by decide
  have hlh : ("low" : String) ≠ "high" := by decide
  have hlm : ("low" : String) ≠ "medium" := by decide
  unfold score_tier
  by_cases h40 : (40 : Int) ≤ s
  · rw [if_pos h40]
    exact ⟨⟨fun _ => h40, fun _ => rfl⟩,
           ⟨fun h => absurd h hhm, fun h => absurd h40 (by omega)⟩,
           ⟨fun h => absurd h hhl, fun h => absurd h40 (by omega)⟩⟩
  · rw [if_neg h40]
    by_cases h20 : (20 : Int) ≤ s
    · rw [if_pos h20]
      exact ⟨⟨fun h => absurd h hmh, fun h => absurd h (by omega)⟩,
             ⟨fun _ => ⟨h20, by omega⟩, fun _ => rfl⟩,
             ⟨fun h => absurd h hml, fun h => absurd h20 (by omega)⟩⟩
    · rw [if_neg h20]
      exact ⟨⟨fun h => absurd h hlh, fun h => absurd h (by omega)⟩,
             ⟨fun h => absurd h hlm, fun h => absurd h.1 h20⟩,
             ⟨fun _ => by omega, fun _ => rfl⟩⟩

theorem tier_consistent_of_eq {r : MatchResult}
    (h : r.tier = score_tier r.score) : tier_consistent r := by
  unfold tier_consistent
  rw [h]
  exact score_tier_spec r.score

theorem fallback_tier_eq (p : Profile) (es : List SearchElement) :
    (fallback_scoring p es).tier = score_tier (fallback_scoring p es).score := rfl

theorem lx_tier_eq (ds : List LXMatch) (p : Profile) (es : List SearchElement) :
    (analyze_with_langextract ds p es).tier
      = score_tier (analyze_with_langextract ds p es).score := rfl

theorem standard_tier_eq (resp : Option PrimaryResponse) (p : Profile) (es : List SearchElement) :
    (analyze_profile_standard resp p es).tier
      = score_tier (analyze_profile_standard resp p es).score := by
  cases resp with
  | none => exact fallback_tier_eq p es
  | some r =>
      unfold analyze_profile_standard
      by_cases h : (validate_matches r.matches_list).all (fun m => m.points.isSome) = true
      · simp only [h, if_true]
      · simp only [h, if_false]
        exact fallback_tier_eq p es

theorem force_null_confidence_points (m : RawMatch) :
    (force_null_confidence m).points = m.points := by
  unfold force_null_confidence
  split <;> rfl

theorem force_null_confidence_found (m : RawMatch) :
    (force_null_confidence m).found_in_profile = m.found_in_profile := by
  unfold force_null_confidence
  split <;> rfl

theorem mem_validate_matches {m : RawMatch} {ms : List RawMatch} (h : m ∈ validate_matches ms) :
    (∃ m0 ∈ ms, force_null_confidence m0 = m) ∧ q0_3 ≤ effective_confidence m := by
  unfold validate_matches at h
  rcases List.mem_filter.mp h with ⟨hmem, hconf⟩
  rcases List.mem_map.mp hmem with ⟨m0, hm0, hf⟩
  exact ⟨⟨m0, hm0, hf⟩, of_decide_eq_true hconf⟩

/-- Every match surviving validation has non-sentinel (in particular,
present) evidence text: a sentinel would have forced its confidence to
0.0, below the 0.3 threshold. -/
theorem validate_matches_not_sentinel {m : RawMatch} {ms : List RawMatch}
    (h : m ∈ validate_matches ms) :
    is_null_sentinel (m.found_in_profile.getD "") = false := by
  rcases mem_validate_matches h with ⟨⟨m0, _, hf⟩, hconf⟩
  by_contra hsent
  rw [Bool.not_eq_false] at hsent
  have hfound : m.found_in_profile = m0.found_in_profile := by
    rw [← hf, force_null_confidence_found]
  have hsent0 : is_null_sentinel (m0.found_in_profile.getD "") = true := by
    rw [← hfound]; exact hsent
  have hconf0 : m.confidence = some 0 := by
    rw [← hf]
    unfold force_null_confidence
    rw [if_pos hsent0]
  have : effective_confidence m = 0 := by
    unfold effective_confidence
    rw [hconf0]
    rfl
  rw [this] at hconf
  exact absurd hconf (by decide)

theorem validate_matches_found_some {m : RawMatch} {ms : List RawMatch}
    (h : m ∈ validate_matches ms) :
    m.found_in_profile.isSome = true := by
  have hs := validate_matches_not_sentinel h
  cases hfp : m.found_in_profile with
  | some s => rfl
  | none =>
      exfalso
      rw [hfp] at hs
      exact absurd hs (by decide)

/-- The fallback's score lies in `[0, 100]` whenever all weights are
positive. -/
theorem fallback_score_bounds (p : Profile) (es : List SearchElement)
    (hw : ∀ e ∈ es, 0 < e.weight) :
    0 ≤ (fallback_scoring p es).score ∧ (fallback_scoring p es).score ≤ 100 := by
  have hsum : 0 ≤ ((es.filter (fun e => substr (lowerStr e.value) (profile_search_text p))).map
      (fun e => e.weight)).sum := by
    apply List.sum_nonneg
    intro x hx
    rcases List.mem_map.mp hx with ⟨e, he, rfl⟩
    exact le_of_lt (hw e (List.mem_of_mem_filter he))
  have hscore : (fallback_scoring p es).score =
      min ((es.filter (fun e => substr (lowerStr e.value) (profile_search_text p))).map
        (fun e => e.weight)).sum 100 := rfl
  rw [hscore]
  omega

/-- Every match built by the LangExtract path draws its points from the
weight of some user element. -/
theorem lx_profile_matches_points {m : RawMatch} {ds : List LXMatch}
    {es : List SearchElement} (h : m ∈ lx_profile_matches ds es) :
    ∃ e ∈ es, m.points = some e.weight := by
  unfold lx_profile_matches at h
  rcases List.mem_filterMap.mp h with ⟨d, _, hm⟩
  rcases Option.map_eq_some'.mp hm with ⟨e, hfind, hme⟩
  refine ⟨e, List.mem_of_find?_eq_some hfind, ?_⟩
  rw [← hme]

/-- Membership in a stable descending insertion. -/
theorem mem_insert_desc {z e : SearchElement} {l : List SearchElement} :
    z ∈ insert_desc e l ↔ z = e ∨ z ∈ l := by
  induction l with
  | nil => simp [insert_desc]
  | cons x xs ih =>
      unfold insert_desc
      split
      · simp [List.mem_cons]
      · simp only [List.mem_cons, ih]
        tauto

/-- Inserting into a descending-sorted list keeps it descending-sorted. -/
theorem sorted_insert_desc {e : SearchElement} {l : List SearchElement}
    (h : l.Sorted (fun a b => b.weight ≤ a.weight)) :
    (insert_desc e l).Sorted (fun a b => b.weight ≤ a.weight) := by
  induction l with
  | nil => simp [insert_desc]
  | cons x xs ih =>
      rw [List.sorted_cons] at h
      unfold insert_desc
      split
      · rename_i hle
        rw [List.sorted_cons]
        refine ⟨?_, List.sorted_cons.mpr h⟩
        intro b hb
        rcases List.mem_cons.mp hb with rfl | hb
        · exact hle
        · exact le_trans (h.1 b hb) hle
      · rename_i hgt
        rw [List.sorted_cons]
        refine ⟨?_, ih h.2⟩
        intro b hb
        rcases mem_insert_desc.mp hb with rfl | hb
        · omega
        · exact h.1 b hb

theorem sorted_sort_desc (l : List SearchElement) :
    (sort_desc l).Sorted (fun a b => b.weight ≤ a.weight) := by
  induction l with
  | nil => exact List.sorted_nil
  | cons x xs ih => exact sorted_insert_desc ih

theorem mem_sort_desc {z : SearchElement} {l : List SearchElement} :
    z ∈ sort_desc l ↔ z ∈ l := by
  induction l with
  | nil => exact Iff.rfl
  | cons x xs ih =>
      show z ∈ insert_desc x (sort_desc xs) ↔ _
      rw [mem_insert_desc, ih]
      simp [List.mem_cons]

/-- Every element the pattern strategy's builder emits carries a
`(category, weight)` pair from the pattern weight table. -/
theorem military_elements_table {mo : Option MilitaryInfo} {e : SearchElement}
    (h : e ∈ military_elements mo) :
    (e.category, e.weight) ∈ [(("military" : String), (40 : Int)), ("military", 30)] := by
  rcases mo with _ | m
  · simp only [military_elements] at h
    exact absurd h (List.not_mem_nil e)
  · simp only [military_elements] at h
    split at h
    · rcases List.mem_singleton.mp h with rfl
      show (("military" : String), (40 : Int)) ∈ _
      decide
    · split at h
      · rcases List.mem_singleton.mp h with rfl
        show (("military" : String), (30 : Int)) ∈ _
        decide
      · exact absurd h (List.not_mem_nil e)

theorem lx_military_elements_table {mo : Option MilitaryInfo} {e : SearchElement}
    (h : e ∈ lx_military_elements mo) :
    (e.category, e.weight) ∈ [(("military" : String), (45 : Int)), ("military", 35)] := by
  rcases mo with _ | m
  · simp only [lx_military_elements] at h
    exact absurd h (List.not_mem_nil e)
  · simp only [lx_military_elements] at h
    split at h
    · rcases List.mem_singleton.mp h with rfl
      show (("military" : String), (45 : Int)) ∈ _
      decide
    · split at h
      · rcases List.mem_singleton.mp h with rfl
        show (("military" : String), (35 : Int)) ∈ _
        decide
      · exact absurd h (List.not_mem_nil e)

theorem build_search_elements_table {d : ParsedData} {e : SearchElement}
    (h : e ∈ build_search_elements d) :
    (e.category, e.weight) ∈ pattern_weight_table := by
  unfold build_search_elements at h
  simp only [List.mem_append] at h
  rcases h with ((((h | h) | h) | h) | h) | h
  · rcases List.mem_filterMap.mp h with ⟨edu, _, hmk⟩
    rcases Option.map_eq_some'.mp hmk with ⟨inst, _, hme⟩
    cases hme
    show (("education" : String), (30 : Int)) ∈ pattern_weight_table
    decide
  · rcases List.mem_map.mp h with ⟨c, _, rfl⟩
    show (("company" : String), (25 : Int)) ∈ pattern_weight_table
    decide
  · rcases military_elements_table h with hmem
    have h40 : (e.category, e.weight) = ("military", (40 : Int)) ∨
        (e.category, e.weight) = ("military", (30 : Int)) := by
      simpa using hmem
    rcases h40 with h40 | h40 <;> rw [h40] <;> decide
  · rcases List.mem_map.mp h with ⟨s, _, rfl⟩
    show (("skill" : String), (10 : Int)) ∈ pattern_weight_table
    decide
  · rcases List.mem_map.mp h with ⟨c, _, rfl⟩
    show (("certification" : String), (15 : Int)) ∈ pattern_weight_table
    decide
  · rcases List.mem_map.mp h with ⟨k, _, rfl⟩
    show (("keyword" : String), (5 : Int)) ∈ pattern_weight_table
    decide

/-- Every element the structured strategy's builder emits carries a
`(category, weight)` pair from the structured weight table. -/
theorem lx_raw_elements_table {d : LXParsedData} {e : SearchElement}
    (h : e ∈ lx_raw_elements d) :
    (e.category, e.weight) ∈ lx_weight_table := by
  unfold lx_raw_elements at h
  simp only [List.mem_append] at h
  rcases h with (((((h | h) | h) | h) | h) | h) | h
  · rcases List.mem_filterMap.mp h with ⟨edu, _, hmk⟩
    rcases Option.bind_eq_some.mp hmk with ⟨inst, _, hf⟩
    split at hf
    · cases Option.some.inj hf
      show (("education" : String), (35 : Int)) ∈ lx_weight_table
      decide
    · exact absurd hf (by simp)
  · rcases List.mem_filterMap.mp h with ⟨c, _, hmk⟩
    split at hmk
    · cases Option.some.inj hmk
      show (("company" : String), (30 : Int)) ∈ lx_weight_table
      decide
    · exact absurd hmk (by simp)
  · rcases lx_military_elements_table h with hmem
    have h45 : (e.category, e.weight) = ("military", (45 : Int)) ∨
        (e.category, e.weight) = ("military", (35 : Int)) := by
      simpa using hmem
    rcases h45 with h45 | h45 <;> rw [h45] <;> decide
  · rcases List.mem_filterMap.mp h with ⟨l, _, hmk⟩
    split at hmk
    · cases Option.some.inj hmk
      show (("location" : String), (25 : Int)) ∈ lx_weight_table
      decide
    · exact absurd hmk (by simp)
  · rcases List.mem_filterMap.mp h with ⟨s, _, hmk⟩
    split at hmk
    · cases Option.some.inj hmk
      show (("skill" : String), (15 : Int)) ∈ lx_weight_table
      decide
    · exact absurd hmk (by simp)
  · rcases List.mem_filterMap.mp h with ⟨c, _, hmk⟩
    split at hmk
    · cases Option.some.inj hmk
      show (("certification" : String), (20 : Int)) ∈ lx_weight_table
      decide
    · exact absurd hmk (by simp)
  · rcases List.mem_filterMap.mp h with ⟨a, _, hmk⟩
    split at hmk
    · cases Option.some.inj hmk
      show (("achievement" : String), (20 : Int)) ∈ lx_weight_table
      decide
    · exact absurd hmk (by simp)

/-! ## Claim theorems -/

/-- Claim C1, counterexample.  The claim asserts `0 ≤ score ≤ 100` on
every path, but on the primary path the summed `points` come from the
parsed LLM response, not from the (positive) element weights, and the
code only caps the sum from above (`min(total, 100)`).  A response whose
single match carries genuine evidence text, confidence 0.5 and points
−50 passes validation, and `analyze_profile` returns score −50 < 0,
with positive-weight search elements. -/
theorem claim_C1_counterexample :
    (analyze_profile_standard (some negative_points_response) usafa_profile [usafa_element]).score
        = -50 ∧
    ¬ (0 ≤ (analyze_profile_standard
        (some negative_points_response) usafa_profile [usafa_element]).score) := by
  constructor
  · decide
  · decide

/-- Claim C1, amended: for every profile and every search-element list
with positive weights, the score returned by each of the three paths
lies in `[0, 100]`, provided — for the primary path only — that every
candidate match of the parsed response carries nonnegative points (which
holds whenever the response obeys the prompt contract that points are
copied from element weights).  Without that proviso the primary path can
return a negative score, as the counterexample shows. -/
theorem claim_C1_amended (r : PrimaryResponse) (ds : List LXMatch) (p : Profile)
    (es : List SearchElement)
    (hw : ∀ e ∈ es, 0 < e.weight)
    (hp : ∀ m ∈ r.matches_list, 0 ≤ m.points.getD 0) :
    (0 ≤ (analyze_profile_standard (some r) p es).score ∧
      (analyze_profile_standard (some r) p es).score ≤ 100) ∧
    (0 ≤ (analyze_with_langextract ds p es).score ∧
      (analyze_with_langextract ds p es).score ≤ 100) ∧
    (0 ≤ (fallback_scoring p es).score ∧ (fallback_scoring p es).score ≤ 100) := by
  refine ⟨?_, ?_, fallback_score_bounds p es hw⟩
  · by_cases hall : (validate_matches r.matches_list).all (fun m => m.points.isSome) = true
    · have hsc : (analyze_profile_standard (some r) p es).score =
          min ((validate_matches r.matches_list).map (fun m => m.points.getD 0)).sum 100 := by
        unfold analyze_profile_standard
        simp only [hall, if_true]
      have hsum : 0 ≤ ((validate_matches r.matches_list).map (fun m => m.points.getD 0)).sum := by
        apply List.sum_nonneg
        intro x hx
        rcases List.mem_map.mp hx with ⟨m, hm, rfl⟩
        rcases mem_validate_matches hm with ⟨⟨m0, hm0, hf⟩, _⟩
        have hpts : m.points = m0.points := by
          rw [← hf, force_null_confidence_points]
        rw [hpts]
        exact hp m0 hm0
      rw [hsc]
      omega
    · have hsc : analyze_profile_standard (some r) p es = fallback_scoring p es := by
        unfold analyze_profile_standard
        simp only [hall, Bool.false_eq_true, if_false]
      rw [hsc]
      exact fallback_score_bounds p es hw
  · have hsum : 0 ≤ (((lx_profile_matches ds es).filter
        (fun m => decide (q0_3 ≤ m.confidence.getD 0))).map (fun m => m.points.getD 0)).sum := by
      apply List.sum_nonneg
      intro x hx
      rcases List.mem_map.mp hx with ⟨m, hm, rfl⟩
      rcases lx_profile_matches_points (List.mem_of_mem_filter hm) with ⟨e, he, hpe⟩
      rw [hpe]
      simp only [Option.getD_some]
      exact le_of_lt (hw e he)
    have hsc : (analyze_with_langextract ds p es).score =
        min (((lx_profile_matches ds es).filter
          (fun m => decide (q0_3 ≤ m.confidence.getD 0))).map (fun m => m.points.getD 0)).sum 100 := rfl
    rw [hsc]
    omega

/-- Witness for the amended C1, at a well-formed one-match response and
the positive-weight USAFA element. -/
theorem claim_C1_witness :
    0 ≤ (analyze_profile_standard (some well_formed_response) usafa_profile [usafa_element]).score ∧
    (analyze_profile_standard (some well_formed_response) usafa_profile [usafa_element]).score ≤ 100 :=
  (claim_C1_amended well_formed_response [] usafa_profile [usafa_element]
    (by decide) (by decide)).1

/-- Claim C2, counterexample.  On the LangExtract path, a parsed
extraction entry with empty text and confidence 0.1 is matched to the
first user element (the empty string is a substring of every value),
kept in the returned `matches` list with confidence 0.1 < 0.3 and a
null-sentinel (empty) `found_in_profile`: the path excludes it from the
score only, and applies no null-sentinel forcing at all. -/
theorem claim_C2_counterexample :
    ((analyze_with_langextract [empty_text_extraction] usafa_profile [usafa_element]).matches_list.all
      (fun m => decide (q0_3 ≤ effective_confidence m))) = false ∧
    ((analyze_with_langextract [empty_text_extraction] usafa_profile [usafa_element]).matches_list.any
      (fun m => is_null_sentinel (m.found_in_profile.getD ""))) = true := by
  constructor
  · decide
  · decide

/-- Claim C2, amended: the confidence gate and the null-sentinel
exclusion hold for the standard primary path's validation — every match
in `validate_matches ms` has (defaulted) confidence ≥ 0.3 and
non-sentinel evidence text — but not for the LangExtract path, which
only omits sub-threshold matches from the score while returning them in
the match list, with no sentinel forcing (see the counterexample). -/
theorem claim_C2_amended (ms : List RawMatch) :
    (validate_matches ms).all (fun m =>
      decide (q0_3 ≤ effective_confidence m) &&
      !(is_null_sentinel (m.found_in_profile.getD ""))) = true := by
  rw [List.all_eq_true]
  intro m hm
  simp only [Bool.and_eq_true, decide_eq_true_eq, Bool.not_eq_true']
  exact ⟨(mem_validate_matches hm).2, validate_matches_not_sentinel hm⟩

/-- Claim C3, counterexample.  In the fallback scorer the USAFA scenario
match does fire with points 45, but the emitted match dict carries *no*
`confidence` key at all — the claim's "confidence 1.0" is not what the
code writes. -/
theorem claim_C3_counterexample :
    (fallback_scoring usafa_profile [usafa_element]).matches_list =
      [{ category := some "military", found_in_profile := some "usafa",
         matches_element := some "USAFA Alumni", points := some 45,
         confidence := none, reasoning := none }] ∧
    ((fallback_scoring usafa_profile [usafa_element]).matches_list.all
      (fun m => decide (m.confidence = some 1))) = false := by
  constructor
  · decide
  · decide

/-- Claim C3, amended: for every search element whose normalized value
is a substring of the concatenated lower-cased profile
text/headline/about, the fallback emits a match whose points equal the
element's weight and whose `confidence` field is absent (not 1.0); in
the USAFA scenario the fallback fires for exactly 45 points and tier
"high". -/
theorem claim_C3_amended :
    (∀ (p : Profile) (es : List SearchElement) (e : SearchElement),
        e ∈ es → substr (lowerStr e.value) (profile_search_text p) = true →
        fallback_match e ∈ (fallback_scoring p es).matches_list ∧
        (fallback_match e).points = some e.weight ∧
        (fallback_match e).confidence = none ∧
        (fallback_match e).found_in_profile = some (lowerStr e.value)) ∧
    (fallback_scoring usafa_profile [usafa_element]).score = 45 ∧
    (fallback_scoring usafa_profile [usafa_element]).tier = "high" := by
  refine ⟨?_, by decide, by decide⟩
  intro p es e he hs
  refine ⟨?_, rfl, rfl, rfl⟩
  exact List.mem_map_of_mem fallback_match (List.mem_filter.mpr ⟨he, hs⟩)

/-- Witness for the amended C3, at the USAFA scenario. -/
theorem claim_C3_witness :
    fallback_match usafa_element ∈ (fallback_scoring usafa_profile [usafa_element]).matches_list ∧
    (fallback_match usafa_element).points = some (45 : Int) ∧
    (fallback_match usafa_element).confidence = none := by
  have h := claim_C3_amended.1 usafa_profile [usafa_element] usafa_element
    (by decide) (by decide)
  exact ⟨h.1, h.2.1, h.2.2.1⟩

/-- Claim C4, counterexample.  Only the structured (LangExtract)
strategy sorts and truncates: the pattern strategy's
`_build_search_elements` does neither.  With 16 companies and a military
academy, it returns 17 elements, and the weight-40 military element sits
after the weight-25 company elements, so the list is not sorted by
descending weight. -/
theorem claim_C4_counterexample :
    (build_search_elements many_companies_data).length = 17 ∧
    ¬ (build_search_elements many_companies_data).Sorted (fun a b => b.weight ≤ a.weight) := by
  constructor
  · decide
  · decide

/-- Claim C4, amended: the structured strategy's `derive_elements`
output (`_parse_with_langextract`) is always at most 15 elements long
and sorted by descending weight; the pattern strategy's builder applies
neither the cap nor the sort (see the counterexample). -/
theorem claim_C4_amended (d : LXParsedData) :
    (lx_search_elements d).length ≤ 15 ∧
    (lx_search_elements d).Sorted (fun a b => b.weight ≤ a.weight) := by
  constructor
  · exact (sort_desc (lx_raw_elements d)).length_take_le 15
  · exact List.Pairwise.sublist (List.take_sublist 15 (sort_desc (lx_raw_elements d)))
      (sorted_sort_desc (lx_raw_elements d))

/-- Claim C5, counterexample.  The two extraction strategies do *not*
share one category-to-weight table: the same single fact (the company
"google") is weighted 25 by the pattern strategy and 30 by the
structured strategy. -/
theorem claim_C5_counterexample :
    ((build_search_elements google_pattern_data).map (fun e => (e.category, e.value, e.weight)) =
      [("company", "google", (25 : Int))]) ∧
    ((lx_search_elements google_lx_data).map (fun e => (e.category, e.value, e.weight)) =
      [("company", "google", (30 : Int))]) ∧
    (25 : Int) ≠ 30 := by
  refine ⟨by decide, by decide, by decide⟩

/-- Claim C5, amended: weight assignment is table-driven *per strategy* —
every element the pattern strategy emits carries a `(category, weight)`
pair from its fixed table (education 30, company 25, military 40/30,
skill 10, certification 15, keyword 5) and every element the structured
strategy emits carries a pair from its own fixed table (education 35,
company 30, military 45/35, location 25, skill 15, certification 20,
achievement 20) — but the two tables differ in every shared category, so
a fact extractable by both strategies gets different weights. -/
theorem claim_C5_amended :
    (∀ (d : ParsedData) (e : SearchElement), e ∈ build_search_elements d →
      (e.category, e.weight) ∈ pattern_weight_table) ∧
    (∀ (d : LXParsedData) (e : SearchElement), e ∈ lx_search_elements d →
      (e.category, e.weight) ∈ lx_weight_table) := by
  constructor
  · intro d e he
    exact build_search_elements_table he
  · intro d e he
    have h1 : e ∈ sort_desc (lx_raw_elements d) := List.mem_of_mem_take he
    exact lx_raw_elements_table (mem_sort_desc.mp h1)

/-- Witness for the amended C5, at the concrete "google" element each
strategy emits. -/
theorem claim_C5_witness :
    ((("company" : String), (25 : Int)) ∈ pattern_weight_table) ∧
    ((("company" : String), (30 : Int)) ∈ lx_weight_table) := by
  constructor
  · exact claim_C5_amended.1 google_pattern_data
      { category := "company", value := "google", weight := 25,
        display := "Former Google", confidence := none } (by decide)
  · exact claim_C5_amended.2 google_lx_data
      { category := "company", value := "google", weight := 30,
        display := "Former google", confidence := some q0_95 } (by decide)

/-- Claim C6 (confirmed): for every lower-cased resume text containing a
military-negation marker, `_extract_military` returns `None` (the
negation guard runs before the keyword scan), so the pattern strategy
emits no element of category "military" — whatever military keywords the
text also contains, and whatever the other extractors produced. -/
theorem claim_C6 (text : String) (ed : List EduEntry) (cos sks cts kws : List String)
    (h : negative_patterns.any (fun pat => substr pat text) = true) :
    extract_military text = none ∧
    ∀ e ∈ build_search_elements
        { education := ed, companies := cos, skills := sks,
          military_service := extract_military text,
          certifications := cts, keywords := kws },
      e.category ≠ "military" := by
  have hnone : extract_military text = none := by
    unfold extract_military
    rw [if_pos h]
  refine ⟨hnone, ?_⟩
  intro e he
  rw [hnone] at he
  unfold build_search_elements at he
  simp only [List.mem_append] at he
  rcases he with ((((he | he) | he) | he) | he) | he
  · rcases List.mem_filterMap.mp he with ⟨edu, _, hmk⟩
    rcases Option.map_eq_some'.mp hmk with ⟨inst, _, hme⟩
    cases hme
    show ("education" : String) ≠ "military"
    decide
  · rcases List.mem_map.mp he with ⟨c, _, rfl⟩
    show ("company" : String) ≠ "military"
    decide
  · have he2 : e ∈ ([] : List SearchElement) := he
    exact absurd he2 (List.not_mem_nil e)
  · rcases List.mem_map.mp he with ⟨s, _, rfl⟩
    show ("skill" : String) ≠ "military"
    decide
  · rcases List.mem_map.mp he with ⟨c, _, rfl⟩
    show ("certification" : String) ≠ "military"
    decide
  · rcases List.mem_map.mp he with ⟨k, _, rfl⟩
    show ("keyword" : String) ≠ "military"
    decide

/-- Witness for C6, at a text that contains both the negation phrase
"no military experience" and the military keywords "navy" and
"officer". -/
theorem claim_C6_witness :
    extract_military negated_military_text = none ∧
    ∀ e ∈ build_search_elements
        { education := [], companies := ["google"], skills := ["python"],
          military_service := extract_military negated_military_text,
          certifications := [], keywords := ["ai"] },
      e.category ≠ "military" :=
  claim_C6 negated_military_text [] ["google"] ["python"] [] ["ai"] (by decide)

/-- Claim C7, counterexample.  With no credential configured
(`api_key=None`, `GEMINI_API_KEY` unset), `ProfileAnalyzer.__init__`
raises `ValueError("Gemini API key required")` — the match operation is
never reached and no fallback MatchResult is produced, contrary to the
claim's "generation backend unavailable" case. -/
theorem claim_C7_counterexample :
    init_analyzer none none = Except.error "Gemini API key required" := rfl

/-- Claim C7, amended: an in-call primary failure (the call errors, or
its output is unparsable — `response = none`) makes the match operation
return the deterministic fallback result instead of propagating, and a
failed LangExtract attempt just routes to the standard path; but the
no-credential case raises `ValueError` at analyzer construction (see the
counterexample), so only in-call failures enjoy the fallback guarantee. -/
theorem claim_C7_amended (resp : Option PrimaryResponse) (p : Profile)
    (es : List SearchElement) :
    analyze_profile_standard none p es = fallback_scoring p es ∧
    analyze_profile none resp p es = analyze_profile_standard resp p es :=
  ⟨rfl, rfl⟩

/-- Claim C8 (confirmed): on every path — standard primary (with any
parsed response or a failed one), LangExtract, and fallback — the
returned tier is "high" iff score ≥ 40, "medium" iff 20 ≤ score < 40,
and "low" iff score < 20. -/
theorem claim_C8 (resp : Option PrimaryResponse) (ds : List LXMatch) (p : Profile)
    (es : List SearchElement) :
    tier_consistent (analyze_profile_standard resp p es) ∧
    tier_consistent (analyze_with_langextract ds p es) ∧
    tier_consistent (fallback_scoring p es) :=
  ⟨tier_consistent_of_eq (standard_tier_eq resp p es),
   tier_consistent_of_eq (lx_tier_eq ds p es),
   tier_consistent_of_eq (fallback_tier_eq p es)⟩

/-- Claim C9 (confirmed): the batch endpoint's loop returns one result
per input profile, aligned by position (item `i` is a function of
profile `i` alone); a profile whose analysis raises gets the error item
`{score=0, tier="low", matches=[], error=<message>}`, and — the loop
being an independent per-item map — no failure aborts or leaks out of
the batch. -/
theorem claim_C9 (analyze : Profile → Except String MatchResult)
    (message : Profile → MatchResult → String) (profiles : List Profile) :
    ((analyze_profiles_batch analyze message profiles).length = profiles.length) ∧
    (∀ i : Nat, (analyze_profiles_batch analyze message profiles)[i]? =
      (profiles[i]?).map (batch_item_of analyze message)) ∧
    (∀ (q : Profile) (err : String), analyze q = Except.error err →
      batch_item_of analyze message q = batch_error_item q err ∧
      (batch_item_of analyze message q).score = 0 ∧
      (batch_item_of analyze message q).tier = "low" ∧
      (batch_item_of analyze message q).matches_list = [] ∧
      (batch_item_of analyze message q).error = some err) := by
  refine ⟨List.length_map profiles (batch_item_of analyze message),
          fun i => List.getElem?_map (batch_item_of analyze message) profiles i, ?_⟩
  intro q err hq
  have hitem : batch_item_of analyze message q = batch_error_item q err := by
    unfold batch_item_of
    rw [hq]
  exact ⟨hitem, by rw [hitem]; rfl, by rw [hitem]; rfl, by rw [hitem]; rfl, by rw [hitem]; rfl⟩

/-- Witness for C9, on a one-profile batch whose analysis raises. -/
theorem claim_C9_witness :
    (analyze_profiles_batch failing_analyze (fun _ _ => "") [usafa_profile]).length = 1 ∧
    batch_item_of failing_analyze (fun _ _ => "") usafa_profile =
      batch_error_item usafa_profile "boom" := by
  have h := claim_C9 failing_analyze (fun _ _ => "") [usafa_profile]
  exact ⟨h.1, (h.2.2 usafa_profile "boom" rfl).1⟩

/-- Claim C10 (confirmed): in the primary-path validation a candidate
match lacking `found_in_profile` is read as the empty string, a null
sentinel, so its confidence is forced to 0.0 (second conjunct) and it is
dropped: every match in the returned list has the field present (first
conjunct; this also covers the fallback result the standard path may
return instead). -/
theorem claim_C10 :
    (∀ (resp : Option PrimaryResponse) (p : Profile) (es : List SearchElement),
      (analyze_profile_standard resp p es).matches_list.all
        (fun m => m.found_in_profile.isSome) = true) ∧
    (∀ m : RawMatch, m.found_in_profile = none →
      (force_null_confidence m).confidence = some 0) := by
  constructor
  · intro resp p es
    rw [List.all_eq_true]
    intro m hm
    cases resp with
    | none =>
        rcases List.mem_map.mp hm with ⟨e, _, rfl⟩
        rfl
    | some r =>
        by_cases hall : (validate_matches r.matches_list).all (fun m => m.points.isSome) = true
        · have hmm : (analyze_profile_standard (some r) p es).matches_list
              = validate_matches r.matches_list := by
            unfold analyze_profile_standard
            simp only [hall, if_true]
          rw [hmm] at hm
          exact validate_matches_found_some hm
        · have hres : analyze_profile_standard (some r) p es = fallback_scoring p es := by
            unfold analyze_profile_standard
            simp only [hall, Bool.false_eq_true, if_false]
          rw [hres] at hm
          rcases List.mem_map.mp hm with ⟨e, _, rfl⟩
          rfl
  · intro m hmf
    unfold force_null_confidence
    rw [hmf]
    rw [if_pos (by decide : is_null_sentinel ((none : Option String).getD "") = true)]

/-- Witness for C10, at a candidate match with no `found_in_profile`,
confidence 1.0 and 35 points. -/
theorem claim_C10_witness :
    (analyze_profile_standard (some no_found_response) usafa_profile []).matches_list.all
      (fun m => m.found_in_profile.isSome) = true ∧
    (force_null_confidence no_found_match).confidence = some 0 :=
  ⟨claim_C10.1 (some no_found_response) usafa_profile [], claim_C10.2 no_found_match rfl⟩

end NetworkIQ
